import Mathlib

/-!
Verification of the health-check engine in scripts/health_check.py.

The Python source is embedded shallowly:

- ServiceTarget models the service dictionaries returned by
  HealthChecker.get_services_to_check (keys name, url, type).
- ServiceCheck and HealthReport mirror the dataclasses of the same names.
  The wall-clock timestamp fields are omitted: they record the creation
  instant and no claim concerns them.
- Network effects are reified in ReqOutcome: a probe attempt either yields
  an HTTP response, times out, or fails with an exception message.  For a
  200 response, the two fallible body reads of the source are reified as
  Option values: jsonStatus is the combined result of response.json()
  followed by data.get applied to the key status (outer none means the try
  block raised anywhere, some none means a parsed object without a status
  field, some (some v) means the field was present with string value v),
  and text is the result of response.text() (none means the read raised).
- Elapsed wall-clock time is passed in as a rational number of seconds;
  Python floats are modelled by rationals.  Python round(x, 2) rounds
  half-to-even on floats; the model rounds half-up, a difference only at
  exact ties, which no claim touches.
- Strings are compared and lowercased over their character lists;
  Char.toLower agrees with the Python str.lower on ASCII.
-/

namespace HealthCheck

/-- One entry of get_services_to_check: a service name, its probe URL and
its declared type tag. -/
structure ServiceTarget where
  name : String
  url : String
  type : String
deriving DecidableEq

/-- The ServiceCheck dataclass: the result of one probe.  The metadata
dictionary only ever holds the single key type, modelled as the field
metadata_type.  The timestamp field is omitted (wall clock). -/
structure ServiceCheck where
  name : String
  url : String
  status : String
  response_time : Option ℚ := none
  error_message : Option String := none
  metadata_type : String := ""
deriving DecidableEq

/-- The HealthReport dataclass, minus the wall-clock timestamp field. -/
structure HealthReport where
  overall_status : String
  total_services : Nat
  healthy_services : Nat
  unhealthy_services : Nat
  unknown_services : Nat
  checks : List ServiceCheck
  duration : ℚ
deriving DecidableEq

/-- Outcome of one HTTP GET attempt, as observed by check_service_async. -/
inductive ReqOutcome where
  | response (code : Nat) (jsonStatus : Option (Option String)) (text : Option String)
  | timeout
  | failure (msg : String)
deriving DecidableEq

/-- Python substring containment needle in hay, over character lists. -/
def substrIn (needle hay : String) : Bool :=
  hay.data.tails.any (fun t => needle.data.isPrefixOf t)

/-- Python str.lower, restricted to the ASCII case mapping of Char.toLower. -/
def lowerStr (s : String) : String :=
  ⟨s.data.map Char.toLower⟩

/-- Python round(q, 2) over rationals (half-up at ties in place of the
float half-to-even). -/
def roundTo2 (q : ℚ) : ℚ :=
  (round (q * 100) : ℤ) / 100

/-- Lines 76 to 80 of the source: the urllib3 Retry strategy configured on
the requests session of the synchronous fallback path.  Its run-time
behaviour lives inside the requests library, outside this repository; only
its configuration data is part of the source. -/
structure RetryConfig where
  total : Nat
  backoff_factor : ℚ
  status_forcelist : List Nat
deriving DecidableEq

/-- The Retry configuration built by HealthChecker.create_session. -/
def create_session_retry (max_retries : Nat) : RetryConfig :=
  { total := max_retries
    backoff_factor := 1
    status_forcelist := [429, 500, 502, 503, 504] }

/-- Classification of a 200 response by check_service_async, lines 159 to
178: status starts as healthy; an api target whose URL contains health
adopts the status field of the JSON body when it parses and defaults to
healthy otherwise; a model target inspects the lowercased body for the
substrings healthy or ok and downgrades to degraded when both are absent,
keeping healthy when the body read raises. -/
def classify200 (service_type url : String) (jsonStatus : Option (Option String))
    (text : Option String) : String :=
  if service_type = "api" ∧ substrIn "health" url = true then
    match jsonStatus with
    | none => "healthy"
    | some none => "healthy"
    | some (some v) => v
  else if service_type = "model" then
    match text with
    | none => "healthy"
    | some t =>
      if substrIn "healthy" (lowerStr t) = false ∧ substrIn "ok" (lowerStr t) = false then
        "degraded"
      else
        "healthy"
  else
    "healthy"

/-- HealthChecker.check_service_async, lines 146 to 201.  The single HTTP
GET of the source is the given outcome; elapsed is the measured wall-clock
time in seconds.  The response_time field reproduces the Python truthiness
test on the elapsed float: a zero elapsed time yields None. -/
def check_service_async (service : ServiceTarget) (outcome : ReqOutcome)
    (elapsed : ℚ) : ServiceCheck :=
  let sc : String × Option String :=
    match outcome with
    | .response code jsonStatus text =>
      if code = 200 then
        (classify200 service.type service.url jsonStatus text, none)
      else
        ("unhealthy", some ("HTTP " ++ toString code))
    | .timeout => ("unhealthy", some "Timeout")
    | .failure msg => ("unhealthy", some msg)
  { name := service.name
    url := service.url
    status := sc.1
    response_time := if elapsed = 0 then none else some (roundTo2 (elapsed * 1000))
    error_message := sc.2
    metadata_type := service.type }

/-- HealthChecker.run_health_checks_async, lines 254 to 257: one probe per
service, results gathered in task order.  The network environment env
assigns each service the outcome and elapsed time of its probe. -/
def run_health_checks_async (env : ServiceTarget → ReqOutcome × ℚ)
    (services : List ServiceTarget) : List ServiceCheck :=
  services.map (fun s => check_service_async s (env s).1 (env s).2)

/-- One completed task writing its result into its own slot of the shared
results collection (the semantics of asyncio.gather: each task owns the
output slot addressed by its input index). -/
def writeSlot {n : Nat} (slots : Fin n → Option ServiceCheck) (i : Fin n)
    (v : ServiceCheck) : Fin n → Option ServiceCheck :=
  fun j => if j = i then some v else slots j

/-- The fan-in of asyncio.gather: tasks complete in the given order, each
writing the result of its own probe into its own slot. -/
def gatherSlots {n : Nat} (f : Fin n → ServiceCheck) (order : List (Fin n)) :
    Fin n → Option ServiceCheck :=
  order.foldl (fun slots i => writeSlot slots i (f i)) (fun _ => none)

/-- HealthChecker.generate_report, lines 268 to 291, minus the wall-clock
timestamp. -/
def generate_report (checks : List ServiceCheck) (duration : ℚ) : HealthReport :=
  let healthy_count := checks.countP (fun c => c.status == "healthy")
  let unhealthy_count := checks.countP (fun c => c.status == "unhealthy")
  let unknown_count := checks.countP (fun c => c.status == "unknown")
  let overall_status :=
    if unhealthy_count > 0 then "unhealthy"
    else if unknown_count > 0 then "degraded"
    else "healthy"
  { overall_status := overall_status
    total_services := checks.length
    healthy_services := healthy_count
    unhealthy_services := unhealthy_count
    unknown_services := unknown_count
    checks := checks
    duration := roundTo2 duration }

/-- Modelled from the spec: the retry schedule of section 4.1 step 2, which
the spec ascribes to the probe (retry on response codes 429, 500, 502, 503
and 504 up to maxRetries times before classifying the final outcome).  The
network is a stream of per-attempt outcomes; this returns the outcome the
spec would classify. -/
def spec_retry_final (attempts : Nat → ReqOutcome) : Nat → Nat → ReqOutcome
  | i, 0 => attempts i
  | i, fuel + 1 =>
    match attempts i with
    | .response code jsonStatus text =>
      if code ∈ (create_session_retry 0).status_forcelist then
        spec_retry_final attempts (i + 1) fuel
      else
        .response code jsonStatus text
    | o => o

/-- Modelled from the spec: a probe that retries per section 4.1 and then
classifies the final outcome with the classification rules of the code. -/
def spec_retry_probe (service : ServiceTarget) (attempts : Nat → ReqOutcome)
    (max_retries : Nat) (elapsed : ℚ) : ServiceCheck :=
  check_service_async service (spec_retry_final attempts 0 max_retries) elapsed

end HealthCheck

namespace HealthCheck

/-! Concrete fixtures used by witnesses and counterexamples. -/

/-- A model-type target from get_services_to_check. -/
def tgtA : ServiceTarget :=
  { name := "vLLM Qwen2.5-14B", url := "http://localhost:9998/health", type := "model" }

/-- An api-type target from get_services_to_check whose URL contains health. -/
def tgtB : ServiceTarget :=
  { name := "LiteLLM Proxy", url := "http://localhost:4000/health/liveliness", type := "api" }

/-- A web-type target. -/
def tgtC : ServiceTarget :=
  { name := "RAGFlow", url := "http://localhost:9380/", type := "web" }

/-- A fixed network environment: every probe gets a 200 with body Service OK. -/
def envW : ServiceTarget → ReqOutcome × ℚ :=
  fun _ => (ReqOutcome.response 200 none (some "Service OK"), 1)

/-- A network where the first attempt returns HTTP 500 and every later
attempt returns HTTP 200. -/
def cexAttempts : Nat → ReqOutcome :=
  fun n => if n = 0 then ReqOutcome.response 500 none none else ReqOutcome.response 200 none none

/-- A probe result with status degraded. -/
def ckDegraded : ServiceCheck :=
  { name := "a", url := "u", status := "degraded", metadata_type := "web" }

/-- A probe result with status healthy. -/
def ckHealthy : ServiceCheck :=
  { name := "b", url := "u", status := "healthy", metadata_type := "web" }

/-! Helper lemmas shared between claims. -/

/-- Python substring containment coincides with the existence of a split of
the haystack character list around the needle. -/
theorem substrIn_eq_true_iff (n h : String) :
    substrIn n h = true ↔ ∃ s t, s ++ n.data ++ t = h.data := by
  unfold substrIn
  rw [List.any_eq_true]
  constructor
  · rintro ⟨tl, htl, hp⟩
    rw [List.mem_tails] at htl
    obtain ⟨s, hs⟩ := htl
    rw [ List.isPrefixOf_iff_prefix] at hp
    obtain ⟨r, hr⟩ := hp
    exact ⟨s, r, by rw [List.append_assoc, hr, hs]⟩
  · rintro ⟨s, t, hst⟩
    refine ⟨n.data ++ t, ?_, ?_⟩
    · rw [List.mem_tails]
      exact ⟨s, by rw [← List.append_assoc, hst]⟩
    · rw [ List.isPrefixOf_iff_prefix]
      exact ⟨t, rfl⟩

/-- Folding completed tasks over the slot array fills exactly the slots of
the completed indices, each with the result of its own probe. -/
theorem foldl_writeSlot {n : Nat} (f : Fin n → ServiceCheck) (order : List (Fin n))
    (slots : Fin n → Option ServiceCheck) (i : Fin n) :
    (order.foldl (fun s j => writeSlot s j (f j)) slots) i =
      if i ∈ order then some (f i) else slots i := by
  induction order generalizing slots with
  | nil => simp
  | cons a rest ih =>
    rw [List.foldl_cons, ih]
    by_cases h1 : i ∈ rest
    · simp [h1]
    · by_cases h2 : i = a <;> simp [writeSlot, h1, h2]

/-- The slot array after all completions in a given order. -/
theorem gatherSlots_apply {n : Nat} (f : Fin n → ServiceCheck) (order : List (Fin n))
    (i : Fin n) :
    gatherSlots f order i = if i ∈ order then some (f i) else none :=
  foldl_writeSlot f order (fun _ => none) i

/-- The three status-string counters of generate_report together with the
residual counter partition the checks list. -/
theorem countP_status_partition (l : List ServiceCheck) :
    l.countP (fun c => c.status == "healthy") + l.countP (fun c => c.status == "unhealthy") +
      l.countP (fun c => c.status == "unknown") +
      l.countP (fun c => !(c.status == "healthy" || c.status == "unhealthy" || c.status == "unknown")) =
      l.length := by
  induction l with
  | nil => rfl
  | cons c rest ih =>
    simp only [List.countP_cons, List.length_cons]
    simp only [Bool.not_or] at ih ⊢
    cases hh : (c.status == "healthy") with
    | true =>
      have h1 : c.status = "healthy" := eq_of_beq hh
      have h2 : (c.status == "unhealthy") = false := by rw [h1]; decide
      have h3 : (c.status == "unknown") = false := by rw [h1]; decide
      simp [hh, h2, h3]
      omega
    | false =>
      cases hu : (c.status == "unhealthy") with
      | true =>
        have h1 : c.status = "unhealthy" := eq_of_beq hu
        have h3 : (c.status == "unknown") = false := by rw [h1]; decide
        simp [hh, hu, h3]
        omega
      | false =>
        cases hk : (c.status == "unknown") with
        | true =>
          simp [hh, hu, hk]
          omega
        | false =>
          simp [hh, hu, hk]
          omega

end HealthCheck

namespace HealthCheck

/-- C1: for every list of probe results, the overall status of the
aggregated report is unhealthy iff at least one result has status
unhealthy; otherwise it is degraded iff at least one result has status
unknown; otherwise it is healthy (so a list with one degraded result and
the rest healthy yields overall healthy). -/
theorem generate_report_overall_status (checks : List ServiceCheck) (duration : ℚ) :
    ((generate_report checks duration).overall_status = "unhealthy" ↔
      ∃ c ∈ checks, c.status = "unhealthy") ∧
    ((¬ ∃ c ∈ checks, c.status = "unhealthy") →
      (((generate_report checks duration).overall_status = "degraded") ↔
        ∃ c ∈ checks, c.status = "unknown")) ∧
    ((¬ ∃ c ∈ checks, c.status = "unhealthy") → (¬ ∃ c ∈ checks, c.status = "unknown") →
      (generate_report checks duration).overall_status = "healthy") := by
  have hov : (generate_report checks duration).overall_status =
      (if 0 < checks.countP (fun c => c.status == "unhealthy") then "unhealthy"
       else if 0 < checks.countP (fun c => c.status == "unknown") then "degraded"
       else "healthy") := rfl
  have hu : (0 < checks.countP (fun c => c.status == "unhealthy")) ↔
      ∃ c ∈ checks, c.status = "unhealthy" := by
    rw [List.countP_pos_iff]
    simp only [beq_iff_eq]
  have hk : (0 < checks.countP (fun c => c.status == "unknown")) ↔
      ∃ c ∈ checks, c.status = "unknown" := by
    rw [List.countP_pos_iff]
    simp only [beq_iff_eq]
  refine ⟨?_, ?_, ?_⟩
  · rw [hov]
    by_cases h1 : 0 < checks.countP (fun c => c.status == "unhealthy")
    · simp only [h1, if_true]
      simp only [hu.mp h1, iff_true]
    · have hne : ¬ ∃ c ∈ checks, c.status = "unhealthy" := fun h => h1 (hu.mpr h)
      by_cases h2 : 0 < checks.countP (fun c => c.status == "unknown") <;>
        simp [h1, h2, hne]
  · intro hnu
    have h1 : ¬ 0 < checks.countP (fun c => c.status == "unhealthy") :=
      fun h => hnu (hu.mp h)
    rw [hov, if_neg h1]
    by_cases h2 : 0 < checks.countP (fun c => c.status == "unknown")
    · rw [if_pos h2]
      exact ⟨fun _ => hk.mp h2, fun _ => rfl⟩
    · rw [if_neg h2]
      constructor
      · intro h
        exact absurd h (by decide)
      · intro h
        exact absurd (hk.mpr h) h2
  · intro hnu hnk
    have h1 : ¬ 0 < checks.countP (fun c => c.status == "unhealthy") :=
      fun h => hnu (hu.mp h)
    have h2 : ¬ 0 < checks.countP (fun c => c.status == "unknown") :=
      fun h => hnk (hk.mp h)
    rw [hov]
    simp [h1, h2]

/-- Witness for C1 at a concrete input: one degraded result plus one
healthy result aggregate to overall healthy. -/
theorem generate_report_overall_status_witness :
    (generate_report [ckDegraded, ckHealthy] 1).overall_status = "healthy" :=
  (generate_report_overall_status [ckDegraded, ckHealthy] 1).2.2 (by decide) (by decide)

/-- C2: the probe is a total function into ServiceCheck, and every failure
mode (timeout, exception, non-200 response) yields status unhealthy with a
present descriptive errorMessage: Timeout, the exception message, or HTTP
followed by the code. -/
theorem check_service_async_failure_modes (service : ServiceTarget) (outcome : ReqOutcome)
    (elapsed : ℚ) :
    (outcome = ReqOutcome.timeout →
      (check_service_async service outcome elapsed).status = "unhealthy" ∧
      (check_service_async service outcome elapsed).error_message = some "Timeout") ∧
    (∀ msg, outcome = ReqOutcome.failure msg →
      (check_service_async service outcome elapsed).status = "unhealthy" ∧
      (check_service_async service outcome elapsed).error_message = some msg) ∧
    (∀ code jsonStatus text, outcome = ReqOutcome.response code jsonStatus text → code ≠ 200 →
      (check_service_async service outcome elapsed).status = "unhealthy" ∧
      (check_service_async service outcome elapsed).error_message =
        some ("HTTP " ++ toString code)) := by
  refine ⟨?_, ?_, ?_⟩
  · rintro rfl
    exact ⟨rfl, rfl⟩
  · rintro msg rfl
    exact ⟨rfl, rfl⟩
  · rintro code jsonStatus text rfl hne
    constructor <;> simp [check_service_async, hne]

/-- Witness for C2 at a concrete input: a timed-out probe of a model target
returns unhealthy with message Timeout. -/
theorem check_service_async_failure_modes_witness :
    (check_service_async tgtA ReqOutcome.timeout 1).status = "unhealthy" ∧
    (check_service_async tgtA ReqOutcome.timeout 1).error_message = some "Timeout" :=
  (check_service_async_failure_modes tgtA ReqOutcome.timeout 1).1 rfl

/-- C8: the three counters of the report, plus the count of results whose
status is none of healthy, unhealthy and unknown, partition the result
list; in particular the three counters sum to at most totalServices. -/
theorem generate_report_count_partition (checks : List ServiceCheck) (duration : ℚ) :
    (generate_report checks duration).healthy_services +
        (generate_report checks duration).unhealthy_services +
        (generate_report checks duration).unknown_services +
        checks.countP (fun c =>
          !(c.status == "healthy" || c.status == "unhealthy" || c.status == "unknown")) =
      (generate_report checks duration).total_services ∧
    (generate_report checks duration).healthy_services +
        (generate_report checks duration).unhealthy_services +
        (generate_report checks duration).unknown_services ≤
      (generate_report checks duration).total_services := by
  have h := countP_status_partition checks
  have e1 : (generate_report checks duration).healthy_services =
      checks.countP (fun c => c.status == "healthy") := rfl
  have e2 : (generate_report checks duration).unhealthy_services =
      checks.countP (fun c => c.status == "unhealthy") := rfl
  have e3 : (generate_report checks duration).unknown_services =
      checks.countP (fun c => c.status == "unknown") := rfl
  have e4 : (generate_report checks duration).total_services = checks.length := rfl
  rw [e1, e2, e3, e4]
  exact ⟨h, by omega⟩

/-- C9 counterexample: late in check_service_async the elapsed time is
tested for Python truthiness, so a probe whose measured elapsed time is
exactly zero gets response_time None even though the timer started and
zero milliseconds would have been recorded otherwise. -/
theorem response_time_zero_cex :
    (check_service_async tgtA ReqOutcome.timeout 0).response_time = none ∧
    (check_service_async tgtA ReqOutcome.timeout 0).response_time ≠
      some (roundTo2 (0 * 1000)) := by
  constructor
  · rfl
  · intro h
    cases h

/-- C9 amended: the response_time field is independent of the probe
outcome; when the elapsed time is nonzero it records the elapsed time
converted to milliseconds and rounded to two decimals, and when the
elapsed time is exactly zero it is absent (the Python truthiness test on
the elapsed float). -/
theorem response_time_amended (service : ServiceTarget) (o1 o2 : ReqOutcome)
    (elapsed : ℚ) :
    (check_service_async service o1 elapsed).response_time =
      (check_service_async service o2 elapsed).response_time ∧
    (elapsed ≠ 0 →
      (check_service_async service o1 elapsed).response_time =
        some (roundTo2 (elapsed * 1000))) ∧
    (elapsed = 0 → (check_service_async service o1 elapsed).response_time = none) := by
  refine ⟨rfl, ?_, ?_⟩
  · intro h
    simp [check_service_async, h]
  · intro h
    simp [check_service_async, h]

/-- Witness for C9 amended at a concrete input: a one-second probe records
1000 milliseconds whatever the outcome was. -/
theorem response_time_amended_witness :
    (check_service_async tgtA ReqOutcome.timeout 1).response_time =
      (check_service_async tgtA (ReqOutcome.response 200 none none) 1).response_time ∧
    (check_service_async tgtA ReqOutcome.timeout 1).response_time =
      some (roundTo2 (1 * 1000)) :=
  ⟨(response_time_amended tgtA ReqOutcome.timeout (ReqOutcome.response 200 none none) 1).1,
   (response_time_amended tgtA ReqOutcome.timeout (ReqOutcome.response 200 none none) 1).2.1
     (by norm_num)⟩

end HealthCheck

namespace HealthCheck

/-- C5: a model-type target with a 200 response is classified from the
body text: degraded when the lowercased body contains neither healthy nor
ok, healthy when it contains either, and healthy when the body read
fails. -/
theorem check_model_body_classification (service : ServiceTarget)
    (jsonStatus : Option (Option String)) (text : Option String) (elapsed : ℚ)
    (htype : service.type = "model") :
    (text = none →
      (check_service_async service (ReqOutcome.response 200 jsonStatus text) elapsed).status =
        "healthy") ∧
    (∀ t, text = some t →
      substrIn "healthy" (lowerStr t) = false → substrIn "ok" (lowerStr t) = false →
      (check_service_async service (ReqOutcome.response 200 jsonStatus text) elapsed).status =
        "degraded") ∧
    (∀ t, text = some t →
      (substrIn "healthy" (lowerStr t) = true ∨ substrIn "ok" (lowerStr t) = true) →
      (check_service_async service (ReqOutcome.response 200 jsonStatus text) elapsed).status =
        "healthy") := by
  have hne : ¬(service.type = "api" ∧ substrIn "health" service.url = true) := by
    rintro ⟨h, -⟩
    rw [htype] at h
    exact absurd h (by decide)
  have hst : (check_service_async service (ReqOutcome.response 200 jsonStatus text)
      elapsed).status = classify200 service.type service.url jsonStatus text := rfl
  refine ⟨?_, ?_, ?_⟩
  · rintro rfl
    rw [hst]
    unfold classify200
    rw [if_neg hne, if_pos htype]
  · rintro t rfl hn1 hn2
    rw [hst]
    unfold classify200
    rw [if_neg hne, if_pos htype]
    simp [hn1, hn2]
  · rintro t rfl hyes
    rw [hst]
    unfold classify200
    rw [if_neg hne, if_pos htype]
    rcases hyes with h | h <;> simp [h]

/-- Witness for C5 at a concrete input: a model target answering 200 with
body I am alive (no healthy and no ok substring) is degraded. -/
theorem check_model_body_classification_witness :
    (check_service_async tgtA (ReqOutcome.response 200 none (some "I am alive")) 1).status =
      "degraded" :=
  (check_model_body_classification tgtA none (some "I am alive") 1 rfl).2.1 "I am alive"
    rfl (by decide) (by decide)

/-- C6: an api-type target whose URL contains health, answering 200,
adopts the status field of the JSON body verbatim when present, and
defaults to healthy when the field is absent or the body fails to parse
as JSON. -/
theorem check_api_health_status_adoption (service : ServiceTarget)
    (jsonStatus : Option (Option String)) (text : Option String) (elapsed : ℚ)
    (htype : service.type = "api") (hurl : substrIn "health" service.url = true) :
    (∀ v, jsonStatus = some (some v) →
      (check_service_async service (ReqOutcome.response 200 jsonStatus text) elapsed).status =
        v) ∧
    (jsonStatus = some none →
      (check_service_async service (ReqOutcome.response 200 jsonStatus text) elapsed).status =
        "healthy") ∧
    (jsonStatus = none →
      (check_service_async service (ReqOutcome.response 200 jsonStatus text) elapsed).status =
        "healthy") := by
  have hcond : service.type = "api" ∧ substrIn "health" service.url = true := ⟨htype, hurl⟩
  have hst : (check_service_async service (ReqOutcome.response 200 jsonStatus text)
      elapsed).status = classify200 service.type service.url jsonStatus text := rfl
  refine ⟨?_, ?_, ?_⟩
  · rintro v rfl
    rw [hst]
    unfold classify200
    rw [if_pos hcond]
  · rintro rfl
    rw [hst]
    unfold classify200
    rw [if_pos hcond]
  · rintro rfl
    rw [hst]
    unfold classify200
    rw [if_pos hcond]

/-- Witness for C6 at a concrete input: the api target with URL containing
health, answering 200 with JSON status ok, gets status ok. -/
theorem check_api_health_status_adoption_witness :
    (check_service_async tgtB (ReqOutcome.response 200 (some (some "ok")) none) 1).status =
      "ok" :=
  (check_api_health_status_adoption tgtB (some (some "ok")) none 1 rfl (by decide)).1
    "ok" rfl

/-- C10: for a model-type target with a 200 response, a body whose
lowercased text contains the substring unhealthy is classified healthy,
because the case-insensitive substring test for healthy matches inside
unhealthy. -/
theorem model_unhealthy_body_is_healthy (service : ServiceTarget)
    (jsonStatus : Option (Option String)) (t : String) (elapsed : ℚ)
    (htype : service.type = "model")
    (hbody : substrIn "unhealthy" (lowerStr t) = true) :
    (check_service_async service (ReqOutcome.response 200 jsonStatus (some t)) elapsed).status =
      "healthy" := by
  have hsub : substrIn "healthy" (lowerStr t) = true := by
    rw [substrIn_eq_true_iff] at hbody ⊢
    obtain ⟨s, r, hsr⟩ := hbody
    have hun : ("unhealthy" : String).data =
        ("un" : String).data ++ ("healthy" : String).data := by decide
    refine ⟨s ++ ("un" : String).data, r, ?_⟩
    rw [← hsr, hun]
    simp only [List.append_assoc]
  exact (check_model_body_classification service jsonStatus (some t) elapsed htype).2.2
    t rfl (Or.inl hsub)

/-- Witness for C10 at a concrete input: a model target answering 200 with
body unhealthy is classified healthy. -/
theorem model_unhealthy_body_is_healthy_witness :
    (check_service_async tgtA (ReqOutcome.response 200 none (some "unhealthy")) 1).status =
      "healthy" :=
  model_unhealthy_body_is_healthy tgtA none "unhealthy" 1 rfl (by decide)

end HealthCheck

namespace HealthCheck

/-- C3: for every nonempty service list and every completion order of the
concurrent probes (any permutation of the task indices), the gathered
slots hold exactly one result per service, and reading them in input-index
order reproduces run_health_checks_async, whose output has one entry per
service in input order. -/
theorem run_health_checks_order (env : ServiceTarget → ReqOutcome × ℚ)
    (services : List ServiceTarget) (order : List (Fin services.length))
    (hne : services ≠ [])
    (hperm : order.Perm (List.finRange services.length)) :
    (run_health_checks_async env services).length = services.length ∧
    List.ofFn (fun i : Fin services.length => gatherSlots
        (fun j : Fin services.length => check_service_async services[(j : Nat)]
          (env services[(j : Nat)]).1 (env services[(j : Nat)]).2) order i) =
      (run_health_checks_async env services).map some := by
  refine ⟨by simp [run_health_checks_async], ?_⟩
  have hmem : ∀ i : Fin services.length, i ∈ order := fun i =>
    hperm.mem_iff.mpr (List.mem_finRange i)
  have hslot : ∀ i : Fin services.length,
      gatherSlots (fun j : Fin services.length => check_service_async services[(j : Nat)]
        (env services[(j : Nat)]).1 (env services[(j : Nat)]).2) order i =
      some (check_service_async services[(i : Nat)]
        (env services[(i : Nat)]).1 (env services[(i : Nat)]).2) := by
    intro i
    rw [gatherSlots_apply, if_pos (hmem i)]
  have hmap : (run_health_checks_async env services).map some =
      List.ofFn (fun i : Fin services.length => some (check_service_async services[(i : Nat)]
        (env services[(i : Nat)]).1 (env services[(i : Nat)]).2)) := by
    rw [run_health_checks_async, List.map_map,
      ← List.ofFn_getElem_eq_map services
        (some ∘ fun s => check_service_async s (env s).1 (env s).2)]
    rfl
  rw [hmap]
  exact congrArg List.ofFn (funext hslot)

/-- Witness for C3 at a concrete input: two services probed concurrently,
with the second task completing before the first, still give one result
per service. -/
theorem run_health_checks_order_witness :
    (run_health_checks_async envW [tgtA, tgtB]).length = ([tgtA, tgtB] : List ServiceTarget).length :=
  (run_health_checks_order envW [tgtA, tgtB] [⟨1, by decide⟩, ⟨0, by decide⟩]
    (by decide)
    (by
      have h : List.finRange ([tgtA, tgtB] : List ServiceTarget).length =
          [⟨0, by decide⟩, ⟨1, by decide⟩] := by decide
      rw [h]
      exact List.Perm.swap (⟨0, by decide⟩ : Fin 2) (⟨1, by decide⟩ : Fin 2) [])).1

/-- C4 counterexample: on a network whose first attempt answers HTTP 500
and whose later attempts answer HTTP 200, the async probe classifies the
first attempt immediately as unhealthy HTTP 500, whereas the retrying
probe the claim describes (retry on 429, 500, 502, 503, 504 up to
maxRetries times) would reach the 200 and report healthy: the probe of
the code performs no retries. -/
theorem check_service_async_retry_cex :
    (check_service_async tgtC (cexAttempts 0) 1).status = "unhealthy" ∧
    (check_service_async tgtC (cexAttempts 0) 1).error_message = some "HTTP 500" ∧
    (spec_retry_probe tgtC cexAttempts 3 1).status = "healthy" ∧
    (check_service_async tgtC (cexAttempts 0) 1).status ≠
      (spec_retry_probe tgtC cexAttempts 3 1).status := by decide

/-- C4 amended: the async probe issues a single request with no retries,
so an HTTP 500 response immediately yields unhealthy with errorMessage
HTTP 500; the retry schedule over codes 429, 500, 502, 503, 504 with
backoff factor 1 and total maxRetries exists only as the configuration of
the requests session of the synchronous fallback path. -/
theorem check_service_async_no_retry (service : ServiceTarget)
    (attempts : Nat → ReqOutcome) (jsonStatus : Option (Option String))
    (text : Option String) (elapsed : ℚ) (max_retries : Nat)
    (h : attempts 0 = ReqOutcome.response 500 jsonStatus text) :
    (check_service_async service (attempts 0) elapsed).status = "unhealthy" ∧
    (check_service_async service (attempts 0) elapsed).error_message = some "HTTP 500" ∧
    500 ∈ (create_session_retry max_retries).status_forcelist ∧
    (create_session_retry max_retries).total = max_retries ∧
    (∀ attempts2 : Nat → ReqOutcome, attempts2 0 = attempts 0 →
      check_service_async service (attempts2 0) elapsed =
        check_service_async service (attempts 0) elapsed) := by
  refine ⟨?_, ?_, by simp [create_session_retry], rfl, ?_⟩
  · rw [h]
    rfl
  · rw [h]
    rfl
  · intro attempts2 h2
    rw [h2]

/-- Witness for C4 amended at a concrete input: the network whose first
attempt is HTTP 500. -/
theorem check_service_async_no_retry_witness :
    (check_service_async tgtC (cexAttempts 0) 1).status = "unhealthy" ∧
    (check_service_async tgtC (cexAttempts 0) 1).error_message = some "HTTP 500" ∧
    500 ∈ (create_session_retry 3).status_forcelist ∧
    (create_session_retry 3).total = 3 ∧
    (∀ attempts2 : Nat → ReqOutcome, attempts2 0 = cexAttempts 0 →
      check_service_async tgtC (attempts2 0) 1 =
        check_service_async tgtC (cexAttempts 0) 1) :=
  check_service_async_no_retry tgtC cexAttempts none none 1 3 (by decide)

/-- C7 counterexample: a classification path does produce status unknown:
an api target whose URL contains health, answering 200 with JSON status
field unknown, yields a result with status unknown, which makes
unknownCount positive and drives the aggregate report into the degraded
branch. -/
theorem unknown_status_reachable_cex :
    (check_service_async tgtB (ReqOutcome.response 200 (some (some "unknown")) none) 1).status =
      "unknown" ∧
    (generate_report
      [check_service_async tgtB (ReqOutcome.response 200 (some (some "unknown")) none) 1]
      1).unknown_services = 1 ∧
    (generate_report
      [check_service_async tgtB (ReqOutcome.response 200 (some (some "unknown")) none) 1]
      1).overall_status = "degraded" := by decide

/-- C7 amended: the only classification path that can produce status
unknown is the verbatim adoption of the JSON status field by an api target
whose URL contains health; every other path yields healthy, degraded or
unhealthy.  Consequently, whenever no result carries status unknown, the
report has unknownCount zero and its degraded branch is not taken. -/
theorem check_status_range_amended :
    (∀ (service : ServiceTarget) (outcome : ReqOutcome) (elapsed : ℚ),
      (check_service_async service outcome elapsed).status = "healthy" ∨
      (check_service_async service outcome elapsed).status = "degraded" ∨
      (check_service_async service outcome elapsed).status = "unhealthy" ∨
      (∃ v, (check_service_async service outcome elapsed).status = v ∧
        service.type = "api" ∧ substrIn "health" service.url = true ∧
        ∃ text, outcome = ReqOutcome.response 200 (some (some v)) text)) ∧
    (∀ (checks : List ServiceCheck) (duration : ℚ),
      (∀ c ∈ checks, c.status ≠ "unknown") →
      (generate_report checks duration).unknown_services = 0 ∧
      (generate_report checks duration).overall_status ≠ "degraded") := by
  constructor
  · intro service outcome elapsed
    cases outcome with
    | timeout => exact Or.inr (Or.inr (Or.inl rfl))
    | failure msg => exact Or.inr (Or.inr (Or.inl rfl))
    | response code jsonStatus text =>
      by_cases hc : code = 200
      · subst hc
        have hst : (check_service_async service
            (ReqOutcome.response 200 jsonStatus text) elapsed).status =
            classify200 service.type service.url jsonStatus text := rfl
        rw [hst]
        unfold classify200
        by_cases hcond : service.type = "api" ∧ substrIn "health" service.url = true
        · rw [if_pos hcond]
          match jsonStatus with
          | none => exact Or.inl rfl
          | some none => exact Or.inl rfl
          | some (some v) =>
            exact Or.inr (Or.inr (Or.inr ⟨v, rfl, hcond.1, hcond.2, text, rfl⟩))
        · rw [if_neg hcond]
          by_cases hm : service.type = "model"
          · rw [if_pos hm]
            match text with
            | none => exact Or.inl rfl
            | some t =>
              by_cases hd : substrIn "healthy" (lowerStr t) = false ∧
                  substrIn "ok" (lowerStr t) = false
              · refine Or.inr (Or.inl ?_)
                show (if substrIn "healthy" (lowerStr t) = false ∧
                    substrIn "ok" (lowerStr t) = false then "degraded" else "healthy") =
                  "degraded"
                rw [if_pos hd]
              · refine Or.inl ?_
                show (if substrIn "healthy" (lowerStr t) = false ∧
                    substrIn "ok" (lowerStr t) = false then "degraded" else "healthy") =
                  "healthy"
                rw [if_neg hd]
          · rw [if_neg hm]
            exact Or.inl rfl
      · refine Or.inr (Or.inr (Or.inl ?_))
        simp [check_service_async, hc]
  · intro checks duration h
    have hz : checks.countP (fun c => c.status == "unknown") = 0 := by
      rw [List.countP_eq_zero]
      intro a ha
      simpa using h a ha
    refine ⟨hz, ?_⟩
    have hov : (generate_report checks duration).overall_status =
        (if 0 < checks.countP (fun c => c.status == "unhealthy") then "unhealthy"
         else if 0 < checks.countP (fun c => c.status == "unknown") then "degraded"
         else "healthy") := rfl
    rw [hov]
    by_cases h1 : 0 < checks.countP (fun c => c.status == "unhealthy")
    · rw [if_pos h1]
      decide
    · rw [if_neg h1, hz]
      simp

/-- Witness for C7 amended at a concrete input: a run whose single result
is healthy has unknownCount zero and is not degraded. -/
theorem check_status_range_amended_witness :
    (generate_report [ckHealthy] 1).unknown_services = 0 ∧
    (generate_report [ckHealthy] 1).overall_status ≠ "degraded" :=
  check_status_range_amended.2 [ckHealthy] 1 (by decide)

end HealthCheck
